import Mathlib

/-!
Shallow embedding of the Telegram webhook dispatcher and the
document-conversion pipeline of `webhook_handlers.py`.

Inbound updates are JSON-like values; `Json` mirrors the shapes the
Python code can receive after JSON decoding.  Python `dict.get(k)`
returns `None` for a missing key, so `Json.get` defaults to `Json.null`;
`Json.getD` mirrors `dict.get(k, default)`.  Python `bool` is a subclass
of `int`, so the `isinstance(x, int)` checks accept booleans; `isPyInt`
mirrors that.
-/

inductive Json where
  | null : Json
  | bool : Bool → Json
  | int : Int → Json
  | str : String → Json
  | arr : List Json → Json
  | obj : List (String × Json) → Json
deriving Repr

namespace Json

def lookup (j : Json) (k : String) : Option Json :=
  match j with
  | .obj fields => fields.lookup k
  | _ => none

/-- Python mapping.get(k): None when the key is absent. -/
def get (j : Json) (k : String) : Json := (j.lookup k).getD .null

/-- Python mapping.get(k, d): the default only when the key is absent. -/
def getD (j : Json) (k : String) (d : Json) : Json := (j.lookup k).getD d

def isObj : Json → Bool
  | .obj _ => true
  | _ => false

def isStr : Json → Bool
  | .str _ => true
  | _ => false

/-- Python isinstance(x, int): bool is a subclass of int. -/
def isPyInt : Json → Bool
  | .int _ => true
  | .bool _ => true
  | _ => false

/-- Python isinstance(x, (int, str)). -/
def isIntOrStr : Json → Bool
  | .int _ => true
  | .bool _ => true
  | .str _ => true
  | _ => false

/-- Python truthiness of a decoded JSON value. -/
def truthy : Json → Bool
  | .null => false
  | .bool b => b
  | .int n => n != 0
  | .str s => s != ""
  | .arr xs => !xs.isEmpty
  | .obj fs => !fs.isEmpty

def asString : Json → String
  | .str s => s
  | _ => ""

end Json

/-!
Python string primitives, modelled on the character list so that they
compute by kernel reduction (the built-in `String.toLower`,
`String.endsWith` and `String.trim` are defined through functions the
kernel cannot unfold).  The inputs of this program are ASCII commands,
extensions and names, for which `Char.toLower`/`Char.isWhitespace`
agree with Python's `str.lower`/`str.strip` semantics.
-/

/-- Python s.lower(). -/
def py_lower (s : String) : String := ⟨s.data.map Char.toLower⟩

/-- Python s.endswith(t). -/
def py_endswith (s t : String) : Bool := t.data.isSuffixOf s.data

/-- Python s.strip(): remove leading and trailing whitespace. -/
def py_strip (s : String) : String :=
  ⟨(((s.data.dropWhile Char.isWhitespace).reverse.dropWhile Char.isWhitespace).reverse)⟩

/-- Python s.split(): split on whitespace runs, discarding empty pieces. -/
def py_split (s : String) : List String :=
  ((s.data.splitOnP Char.isWhitespace).filter (fun l => !l.isEmpty)).map
    (fun cs => (⟨cs⟩ : String))

/-- Python sep.join(parts). -/
def py_join (sep : String) (parts : List String) : String :=
  match parts with
  | [] => ""
  | p :: rest => rest.foldl (fun acc q => acc ++ sep ++ q) p

example : (Json.obj [("a", Json.int 1)]).get "a" = Json.int 1 := rfl
example : (Json.obj [("a", Json.int 1)]).get "b" = Json.null := rfl
example : (Json.obj [("a", Json.null)]).getD "a" (Json.str "") = Json.null := rfl
example : (Json.obj []).getD "a" (Json.str "") = Json.str "" := rfl

/-!
Observable side effects of one `handle_update` run.  Every outbound
network request of `_handle_document_message` / `_notify_file_processing`
and every append of `_persist_contact_data` is recorded as one event, in
program order.  Bytes are modelled abstractly as `List Nat`.
-/

inductive Event where
  | notify : Event
  | locate (file_id : String) : Event
  | download (file_path : String) : Event
  | convert : Event
  | upload (filename : Json) (payload : List Nat) : Event
  | contactPersist (payload : Json) : Event

/-- Outcome of one `_handle_document_message` call: the Python
`return None` fall-through (the dispatcher then tries the contact and
text handlers), a returned payload dict, or an uncaught exception
escaping the handler (the AttributeError of line 271, raised outside
the try block when the decoded getFile body carries a truthy
non-mapping "result"). -/
inductive DocOutcome where
  | fallthrough : DocOutcome
  | payload (p : Json) : DocOutcome
  | raised : DocOutcome

/--
The process environment and remote collaborators of one run:
`token` models `os.getenv("TELEGRAM_BOT_TOKEN")` (empty string = unset
or empty, both falsy in `if not token`); `getFileResp` the outcome of
the `getFile` HTTP call (`error` = exception from `requests`/
`raise_for_status`/`json()`, `ok` = decoded body); `downloadResp` the
outcome of the file download; `converterAvailable` whether
`convert_xls_bytes_to_xlsx_bytes` imported; `convertResult` the
converter's behavior on the downloaded bytes; `sendDocOk` whether the
`sendDocument` upload succeeds; `persistOk` whether
`_persist_contact_data` succeeds (false = mkdir/open/write raises).
-/
structure Env where
  token : String
  getFileResp : Except Unit Json
  downloadResp : Except Unit (List Nat)
  converterAvailable : Bool
  convertResult : List Nat → Except Unit (List Nat)
  sendDocOk : Bool
  persistOk : Bool

/-- A Telegram sendMessage reply payload, as built throughout the handler. -/
def sendMessagePayload (chat_id : Json) (text : String) : Json :=
  .obj [("method", .str "sendMessage"), ("chat_id", chat_id), ("text", .str text)]

def STATUS_IGNORED : Json := .obj [("status", .str "ignored")]

def STATUS_OK : Json := .obj [("status", .str "ok")]

def STATUS_SENT : Json := .obj [("status", .str "sent")]

def MAX_BYTES : Nat := 1 * 1024 * 1024

def SUPPORTED_MIME : String := "application/vnd.ms-excel"

/-- Python file_name.lower().endswith((".xls", ".xlx")) guarded by
isinstance(file_name, str), from lines 233-235 of webhook_handlers.py. -/
def has_supported_extension (file_name : Json) : Bool :=
  file_name.isStr &&
    (py_endswith (py_lower file_name.asString) ".xls"
      || py_endswith (py_lower file_name.asString) ".xlx")

/-- The declared-size rejection test of line 246:
isinstance(file_size, int) and file_size > MAX_BYTES (Python bools are
ints, so a boolean size is 0 or 1 and never exceeds the ceiling). -/
def size_exceeds (file_size : Json) : Bool :=
  match file_size with
  | .int n => n > (MAX_BYTES : Int)
  | _ => false

/--
`TelegramWebhookHandler._handle_document_message` (lines 198-317).
Returns the call's outcome (fall-through, payload dict, or the
uncaught AttributeError of line 271) together with the ordered event
trace.
-/
def handle_document_message (env : Env) (message : Json) : DocOutcome × List Event :=
  let document := message.get "document"
  let chat := message.get "chat"
  if !document.isObj || !chat.isObj then (.fallthrough, [])
  else
    let chat_id := chat.get "id"
    if !chat_id.isIntOrStr then (.fallthrough, [])
    else
      let file_id := document.get "file_id"
      let file_name := document.get "file_name"
      let file_size := document.get "file_size"
      let mime_type := document.getD "mime_type" (.str "")
      if !file_id.isStr || !mime_type.isStr then (.fallthrough, [])
      else
        let has_supported_mime := mime_type.asString == SUPPORTED_MIME
        if !(has_supported_mime || has_supported_extension file_name) then (.fallthrough, [])
        else if size_exceeds file_size then
          (.payload (sendMessagePayload chat_id "Файл слишком большой (макс 1МБ)."), [])
        else if env.token = "" then
          (.payload (sendMessagePayload chat_id "Сервис не настроен (нет токена)."), [])
        else
          let evs := [Event.notify, Event.locate file_id.asString]
          match env.getFileResp with
          | .error _ =>
              (.payload (sendMessagePayload chat_id "Не удалось получить файл от Telegram."), evs)
          | .ok data =>
            -- line 265 evaluates list(data.keys()) inside the try block,
            -- so a decoded non-dict body raises there and is caught as a
            -- getFile failure
            if !data.isObj then
              (.payload (sendMessagePayload chat_id "Не удалось получить файл от Telegram."), evs)
            else
              let result := if (data.get "result").truthy then data.get "result" else Json.obj []
              -- line 271 runs outside the try block: result.get on a
              -- truthy non-mapping "result" raises an uncaught
              -- AttributeError, which escapes the handler
              if !result.isObj then (.raised, evs)
              else
                let file_path := result.get "file_path"
                if !file_path.isStr then
                  (.payload (sendMessagePayload chat_id "Неверный ответ Telegram при получении файла."), evs)
                else
                  let evs := evs ++ [Event.download file_path.asString]
                  match env.downloadResp with
                  | .error _ =>
                      (.payload (sendMessagePayload chat_id "Не удалось скачать файл."), evs)
                  | .ok xls_bytes =>
                    if xls_bytes.length > MAX_BYTES then
                      (.payload (sendMessagePayload chat_id "Файл слишком большой (макс 1МБ)."), evs)
                    else if !env.converterAvailable then
                      (.payload (sendMessagePayload chat_id "Конвертер не доступен на сервере."), evs)
                    else
                      let evs := evs ++ [Event.convert]
                      match env.convertResult xls_bytes with
                      | .error _ =>
                          (.payload (sendMessagePayload chat_id "Ошибка при конвертации файла."), evs)
                      | .ok xlsx_bytes =>
                        let fname := if file_name.truthy then file_name else Json.str "converted.xlsx"
                        let evs := evs ++ [Event.upload fname xlsx_bytes]
                        if env.sendDocOk then (.payload STATUS_SENT, evs)
                        else
                          (.payload (sendMessagePayload chat_id "Не удалось отправить конвертированный файл обратно."), evs)

/-- The name-part comprehension of lines 331-335: keep a name only when
it is a string whose strip() is non-empty, and keep the stripped form. -/
def strip_part (p : Json) : Option String :=
  match p with
  | .str s => if py_strip s = "" then none else some (py_strip s)
  | _ => none

def CONTACT_PLACEHOLDER : String := "контакт"

/-- ContactLabel derivation of lines 327-341 of webhook_handlers.py. -/
def contact_label (first_name last_name phone : Json) : String :=
  let name_parts := [first_name, last_name].filterMap strip_part
  if !name_parts.isEmpty then py_join " " name_parts
  else
    match phone with
    | .str s => if py_strip s = "" then CONTACT_PLACEHOLDER else py_strip s
    | _ => CONTACT_PLACEHOLDER

/-- The default contact_saved_template of texts.py rendered with a
label: "Спасибо! \x7bcontact_label\x7d сохранён для авторизации.". -/
def contact_saved_text (label : String) : String :=
  "Спасибо! " ++ label ++ " сохранён для авторизации."

/-- `TelegramWebhookHandler._prepare_contact_payload` (lines 359-396).
Keys of decoded JSON objects are always strings, so the str-key
filtering of the Python code keeps every field. -/
def prepare_contact_payload (chat_id : Json) (message : Json) : Option Json :=
  let contact := message.get "contact"
  if !contact.isObj then none
  else
    let base := [("chat_id", chat_id), ("contact", contact)]
    let base := if (message.get "message_id").isPyInt then
        base ++ [("message_id", message.get "message_id")] else base
    let base := if (message.get "date").isPyInt then
        base ++ [("date", message.get "date")] else base
    let base := if (message.get "from").isObj then
        base ++ [("from", message.get "from")] else base
    some (.obj base)

/-- `TelegramWebhookHandler._create_contact_acknowledgement`
(lines 319-357), with the default texts of `TextMessageHandler` (the
default template always formats, so the format fallback of lines
347-352 is the identity here).  `.error` is the uncaught exception of
`_persist_contact_data`. -/
def create_contact_acknowledgement (env : Env) (chat_id : Json) (message : Json) :
    Except Unit (Json × List Event) :=
  let contact := message.get "contact"
  let ack := fun (evs : List Event) =>
    let label := contact_label (contact.get "first_name") (contact.get "last_name")
      (contact.get "phone_number")
    Except.ok (sendMessagePayload chat_id (contact_saved_text label), evs)
  match prepare_contact_payload chat_id message with
  | some payload =>
      if !env.persistOk then .error ()
      else ack [Event.contactPersist payload]
  | none => ack []

/-- `TelegramWebhookHandler._handle_contact_message` (lines 173-196). -/
def handle_contact_message (env : Env) (message : Json) :
    Except Unit (Option Json × List Event) :=
  let contact := message.get "contact"
  let chat := message.get "chat"
  if !contact.isObj || !chat.isObj then .ok (none, [])
  else
    let chat_id := chat.get "id"
    if !chat_id.isIntOrStr then .ok (none, [])
    else
      match create_contact_acknowledgement env chat_id message with
      | .error e => .error e
      | .ok (resp, evs) => .ok (some resp, evs)

def GREETING_TEXT : String :=
  "Привет! Чтобы продолжить, авторизуйтесь через отправку контакта кнопкой ниже."

def AUTHORIZE_BUTTON_TEXT : String := "Авторизоваться"

/-- `TextMessageHandler._handle_start` reply payload (lines 78-96). -/
def start_payload (chat_id : Json) : Json :=
  .obj [("method", .str "sendMessage"), ("chat_id", chat_id),
    ("text", .str GREETING_TEXT),
    ("reply_markup", .obj [
      ("keyboard", .arr [.arr [.obj [("text", .str AUTHORIZE_BUTTON_TEXT),
        ("request_contact", .bool true)]]]),
      ("resize_keyboard", .bool true),
      ("one_time_keyboard", .bool true)])]

/-- `TextMessageHandler.handle` (lines 64-76) with the default command
table, whose only entry is "/start". -/
def text_handler_handle (chat_id : Json) (text : String) : Option Json :=
  let normalized := py_strip text
  if normalized = "" then none
  else
    let first_token := py_lower ((py_split normalized).headD "")
    if first_token = "/start" then some (start_payload chat_id) else none

/-- `TelegramWebhookHandler._handle_text_message` (lines 160-171). -/
def handle_text_message (message : Json) : Option Json :=
  let text := message.get "text"
  let chat := message.get "chat"
  if !text.isStr || !chat.isObj then none
  else
    let chat_id := chat.get "id"
    if !chat_id.isIntOrStr then none
    else text_handler_handle chat_id text.asString

/-- `TelegramWebhookHandler.handle_update` (lines 135-158): document
first, then contact, then text; `.error` is an uncaught exception
escaping to the caller (a persistence failure in the contact path, or
the AttributeError of line 271 in the document path). -/
def handle_update (env : Env) (update : Json) : Except Unit (Json × List Event) :=
  if !update.isObj then .ok (STATUS_IGNORED, [])
  else
    let message := update.get "message"
    if !message.isObj then .ok (STATUS_OK, [])
    else
      match handle_document_message env message with
      | (.payload resp, evs) => .ok (resp, evs)
      | (.raised, _) => .error ()
      | (.fallthrough, _) =>
        match handle_contact_message env message with
        | .error e => .error e
        | .ok (some resp, evs) => .ok (resp, evs)
        | .ok (none, _) =>
          match handle_text_message message with
          | some resp => .ok (resp, [])
          | none => .ok (STATUS_OK, [])

/-!
Fidelity checks for the unprotected lines 270-271: a getFile body
whose truthy "result" is not a mapping makes the handler raise (and
handle_update propagate the exception), while a decoded non-dict body
raises at line 265 inside the try and is caught as a getFile failure.
-/

example :
    handle_document_message
      { token := "tok", getFileResp := .ok (Json.obj [("result", Json.str "abc")]),
        downloadResp := .error (), converterAvailable := true,
        convertResult := fun b => .ok b, sendDocOk := true, persistOk := true }
      (Json.obj [("chat", Json.obj [("id", Json.int 1)]),
        ("document", Json.obj [("file_id", Json.str "f1"),
          ("mime_type", Json.str "application/vnd.ms-excel")])]) =
      (DocOutcome.raised, [Event.notify, Event.locate "f1"]) := rfl

example :
    handle_update
      { token := "tok", getFileResp := .ok (Json.obj [("result", Json.str "abc")]),
        downloadResp := .error (), converterAvailable := true,
        convertResult := fun b => .ok b, sendDocOk := true, persistOk := true }
      (Json.obj [("message", Json.obj [("chat", Json.obj [("id", Json.int 1)]),
        ("document", Json.obj [("file_id", Json.str "f1"),
          ("mime_type", Json.str "application/vnd.ms-excel")])])]) = .error () := rfl

example :
    handle_document_message
      { token := "tok", getFileResp := .ok (Json.arr [Json.int 1]),
        downloadResp := .error (), converterAvailable := true,
        convertResult := fun b => .ok b, sendDocOk := true, persistOk := true }
      (Json.obj [("chat", Json.obj [("id", Json.int 1)]),
        ("document", Json.obj [("file_id", Json.str "f1"),
          ("mime_type", Json.str "application/vnd.ms-excel")])]) =
      (DocOutcome.payload
          (sendMessagePayload (Json.int 1) "Не удалось получить файл от Telegram."),
        [Event.notify, Event.locate "f1"]) := rfl

/-! Evaluation lemmas for the `Json` discriminators on constructors. -/

@[simp] theorem Json.isObj_obj (fs : List (String × Json)) : (Json.obj fs).isObj = true := rfl

@[simp] theorem Json.isStr_str (s : String) : (Json.str s).isStr = true := rfl

@[simp] theorem Json.isIntOrStr_int (n : Int) : (Json.int n).isIntOrStr = true := rfl

@[simp] theorem Json.isIntOrStr_str (s : String) : (Json.str s).isIntOrStr = true := rfl

@[simp] theorem Json.asString_str (s : String) : (Json.str s).asString = s := rfl

/-- Only an object can answer a key with a truthy value: on every
other shape `get` yields `null`, which is falsy. -/
theorem Json.isObj_of_get_truthy (j : Json) (k : String)
    (h : (j.get k).truthy = true) : j.isObj = true := by
  cases j <;> first | rfl | simp [Json.get, Json.lookup, Json.truthy] at h

/-- Only an object can answer a key with a string value: on every
other shape `get` yields `null`. -/
theorem Json.isObj_of_get_str (j : Json) (k : String) (s : String)
    (h : j.get k = Json.str s) : j.isObj = true := by
  cases j <;> first | rfl | simp [Json.get, Json.lookup] at h

/-- Claim C4: with an eligible document inside the size ceiling and no
bot token configured, the pipeline returns the terminal "service not
configured" message with an empty event trace, so no network call (no
notify, locate, download or upload) is made. -/
theorem pipeline_no_token_terminal (env : Env) (message document chat chat_id mt : Json)
    (hd : message.get "document" = document) (hdo : document.isObj = true)
    (hc : message.get "chat" = chat) (hco : chat.isObj = true)
    (hid : chat.get "id" = chat_id) (hcid : chat_id.isIntOrStr = true)
    (hfs : (document.get "file_id").isStr = true)
    (hmt : document.getD "mime_type" (Json.str "") = mt) (hmts : mt.isStr = true)
    (helig : (mt.asString == SUPPORTED_MIME
      || has_supported_extension (document.get "file_name")) = true)
    (hsize : size_exceeds (document.get "file_size") = false)
    (htok : env.token = "") :
    handle_document_message env message =
      (.payload (sendMessagePayload chat_id "Сервис не настроен (нет токена)."), []) := by
  simp [handle_document_message, hd, hc, hid, hmt, hdo, hco, hcid, hfs, hmts, helig, hsize, htok]

/-- Witness for C4 at a concrete eligible document and empty token. -/
theorem pipeline_no_token_terminal_witness :
    handle_document_message
      { token := "", getFileResp := .error (), downloadResp := .error (),
        converterAvailable := false, convertResult := fun _ => .error (),
        sendDocOk := false, persistOk := true }
      (Json.obj [("chat", Json.obj [("id", Json.int 1)]),
        ("document", Json.obj [("file_id", Json.str "f1"),
          ("mime_type", Json.str "application/vnd.ms-excel")])]) =
      (DocOutcome.payload (sendMessagePayload (Json.int 1) "Сервис не настроен (нет токена)."), []) :=
  pipeline_no_token_terminal _ _
    (Json.obj [("file_id", Json.str "f1"),
      ("mime_type", Json.str "application/vnd.ms-excel")])
    (Json.obj [("id", Json.int 1)]) (Json.int 1) (Json.str "application/vnd.ms-excel")
    rfl rfl rfl rfl rfl rfl rfl rfl rfl (by decide) rfl rfl

/-- Claim C6: a malformed update (any non-object body) is never an
error: handle_update returns the "ignored" status payload with no side
effects. -/
theorem malformed_update_ignored (env : Env) (update : Json)
    (h : update.isObj = false) :
    handle_update env update = .ok (STATUS_IGNORED, []) := by
  simp [handle_update, h]

/-- Witness for C6 at a concrete non-object update body. -/
theorem malformed_update_ignored_witness :
    handle_update
      { token := "", getFileResp := .error (), downloadResp := .error (),
        converterAvailable := false, convertResult := fun _ => .error (),
        sendDocOk := false, persistOk := true }
      (Json.str "not an update") = .ok (STATUS_IGNORED, []) :=
  malformed_update_ignored _ (Json.str "not an update") rfl

/-- Claim C2: an eligible document with a declared integer size above
1,048,576 bytes is rejected with the terminal "file too large" message
and an empty trace (no network call); an eligible document with no
declared size whose downloaded payload exceeds 1,048,576 bytes is
rejected with the same message after the download event, with the
converter never invoked. -/
theorem size_ceiling_enforced :
    (∀ (env : Env) (message document chat chat_id mt : Json) (n : Int),
      message.get "document" = document → document.isObj = true →
      message.get "chat" = chat → chat.isObj = true →
      chat.get "id" = chat_id → chat_id.isIntOrStr = true →
      (document.get "file_id").isStr = true →
      document.getD "mime_type" (Json.str "") = mt → mt.isStr = true →
      (mt.asString == SUPPORTED_MIME
        || has_supported_extension (document.get "file_name")) = true →
      document.get "file_size" = Json.int n → n > 1048576 →
      handle_document_message env message =
        (.payload (sendMessagePayload chat_id "Файл слишком большой (макс 1МБ)."), [])) ∧
    (∀ (env : Env) (message document chat chat_id mt data : Json)
        (fid p : String) (bs : List Nat),
      message.get "document" = document → document.isObj = true →
      message.get "chat" = chat → chat.isObj = true →
      chat.get "id" = chat_id → chat_id.isIntOrStr = true →
      document.get "file_id" = Json.str fid →
      document.getD "mime_type" (Json.str "") = mt → mt.isStr = true →
      (mt.asString == SUPPORTED_MIME
        || has_supported_extension (document.get "file_name")) = true →
      document.lookup "file_size" = none →
      env.token ≠ "" →
      env.getFileResp = .ok data →
      (data.get "result").truthy = true →
      (data.get "result").get "file_path" = Json.str p →
      env.downloadResp = .ok bs → bs.length > MAX_BYTES →
      handle_document_message env message =
        (.payload (sendMessagePayload chat_id "Файл слишком большой (макс 1МБ)."),
          [Event.notify, Event.locate fid, Event.download p])) := by
  constructor
  · intro env message document chat chat_id mt n hd hdo hc hco hid hcid hfs hmt hmts helig hsz hn
    have hx : size_exceeds (document.get "file_size") = true := by
      simp [size_exceeds, hsz, MAX_BYTES]
      omega
    simp [handle_document_message, hd, hc, hid, hmt, hdo, hco, hcid, hfs, hmts, helig, hx]
  · intro env message document chat chat_id mt data fid p bs hd hdo hc hco hid hcid hfid hmt
      hmts helig hsz htok hgf hrt hfp hdl hlen
    have hx : size_exceeds (document.get "file_size") = false := by
      simp [Json.get, size_exceeds, hsz]
    have hdataobj : data.isObj = true := Json.isObj_of_get_truthy data "result" hrt
    have hrobj : (data.get "result").isObj = true :=
      Json.isObj_of_get_str (data.get "result") "file_path" p hfp
    simp [handle_document_message, hd, hc, hid, hmt, hdo, hco, hcid, hfid, hmts, helig, hx,
      htok, hgf, hrt, hfp, hdl, hlen, hdataobj, hrobj]

/-- Witness for C2: the declared-size branch at size 1,048,577 and the
post-download branch at an actual payload of 1,048,577 bytes. -/
theorem size_ceiling_enforced_witness :
    (handle_document_message
      { token := "tok", getFileResp := .error (), downloadResp := .error (),
        converterAvailable := true, convertResult := fun b => .ok b,
        sendDocOk := true, persistOk := true }
      (Json.obj [("chat", Json.obj [("id", Json.int 1)]),
        ("document", Json.obj [("file_id", Json.str "f1"),
          ("mime_type", Json.str "application/vnd.ms-excel"),
          ("file_size", Json.int 1048577)])]) =
      (DocOutcome.payload (sendMessagePayload (Json.int 1) "Файл слишком большой (макс 1МБ)."), [])) ∧
    (handle_document_message
      { token := "tok",
        getFileResp := .ok (Json.obj [("result", Json.obj [("file_path", Json.str "d/f")])]),
        downloadResp := .ok (List.replicate 1048577 0),
        converterAvailable := true, convertResult := fun b => .ok b,
        sendDocOk := true, persistOk := true }
      (Json.obj [("chat", Json.obj [("id", Json.int 1)]),
        ("document", Json.obj [("file_id", Json.str "f1"),
          ("mime_type", Json.str "application/vnd.ms-excel")])]) =
      (DocOutcome.payload (sendMessagePayload (Json.int 1) "Файл слишком большой (макс 1МБ)."),
        [Event.notify, Event.locate "f1", Event.download "d/f"])) := by
  constructor
  · exact size_ceiling_enforced.1 _ _
      (Json.obj [("file_id", Json.str "f1"),
        ("mime_type", Json.str "application/vnd.ms-excel"),
        ("file_size", Json.int 1048577)])
      (Json.obj [("id", Json.int 1)]) (Json.int 1)
      (Json.str "application/vnd.ms-excel") 1048577
      rfl rfl rfl rfl rfl rfl rfl rfl rfl (by decide) rfl (by decide)
  · exact size_ceiling_enforced.2 _ _
      (Json.obj [("file_id", Json.str "f1"),
        ("mime_type", Json.str "application/vnd.ms-excel")])
      (Json.obj [("id", Json.int 1)]) (Json.int 1)
      (Json.str "application/vnd.ms-excel")
      (Json.obj [("result", Json.obj [("file_path", Json.str "d/f")])])
      "f1" "d/f" (List.replicate 1048577 0)
      rfl rfl rfl rfl rfl rfl rfl rfl rfl (by decide) rfl (by decide) rfl rfl rfl rfl
      (by simp only [List.length_replicate, MAX_BYTES, gt_iff_lt]; omega)

/-- Claim C5: when the download stage fails, the pipeline immediately
returns the terminal "could not download file" message; the trace ends
at the download event, so the convert and upload stages are invoked
zero times in that run. -/
theorem download_failure_short_circuits (env : Env)
    (message document chat chat_id mt data : Json) (fid p : String)
    (hd : message.get "document" = document) (hdo : document.isObj = true)
    (hc : message.get "chat" = chat) (hco : chat.isObj = true)
    (hid : chat.get "id" = chat_id) (hcid : chat_id.isIntOrStr = true)
    (hfid : document.get "file_id" = Json.str fid)
    (hmt : document.getD "mime_type" (Json.str "") = mt) (hmts : mt.isStr = true)
    (helig : (mt.asString == SUPPORTED_MIME
      || has_supported_extension (document.get "file_name")) = true)
    (hsize : size_exceeds (document.get "file_size") = false)
    (htok : env.token ≠ "")
    (hgf : env.getFileResp = .ok data)
    (hrt : (data.get "result").truthy = true)
    (hfp : (data.get "result").get "file_path" = Json.str p)
    (hdl : env.downloadResp = .error ()) :
    handle_document_message env message =
      (.payload (sendMessagePayload chat_id "Не удалось скачать файл."),
        [Event.notify, Event.locate fid, Event.download p]) ∧
    Event.convert ∉ (handle_document_message env message).2 ∧
    (∀ (f : Json) (b : List Nat), Event.upload f b ∉ (handle_document_message env message).2) := by
  have hmain : handle_document_message env message =
      (.payload (sendMessagePayload chat_id "Не удалось скачать файл."),
        [Event.notify, Event.locate fid, Event.download p]) := by
    have hdataobj : data.isObj = true := Json.isObj_of_get_truthy data "result" hrt
    have hrobj : (data.get "result").isObj = true :=
      Json.isObj_of_get_str (data.get "result") "file_path" p hfp
    simp [handle_document_message, hd, hc, hid, hmt, hdo, hco, hcid, hfid, hmts, helig,
      hsize, htok, hgf, hrt, hfp, hdl, hdataobj, hrobj]
  refine ⟨hmain, ?_, ?_⟩
  · rw [hmain]
    simp
  · intro f b
    rw [hmain]
    simp

/-- Witness for C5 at a concrete run whose download request fails. -/
theorem download_failure_short_circuits_witness :
    handle_document_message
      { token := "tok",
        getFileResp := .ok (Json.obj [("result", Json.obj [("file_path", Json.str "d/f")])]),
        downloadResp := .error (),
        converterAvailable := true, convertResult := fun b => .ok b,
        sendDocOk := true, persistOk := true }
      (Json.obj [("chat", Json.obj [("id", Json.int 1)]),
        ("document", Json.obj [("file_id", Json.str "f1"),
          ("mime_type", Json.str "application/vnd.ms-excel")])]) =
      (DocOutcome.payload (sendMessagePayload (Json.int 1) "Не удалось скачать файл."),
        [Event.notify, Event.locate "f1", Event.download "d/f"]) :=
  (download_failure_short_circuits
    { token := "tok",
      getFileResp := .ok (Json.obj [("result", Json.obj [("file_path", Json.str "d/f")])]),
      downloadResp := .error (),
      converterAvailable := true, convertResult := fun b => .ok b,
      sendDocOk := true, persistOk := true }
    (Json.obj [("chat", Json.obj [("id", Json.int 1)]),
      ("document", Json.obj [("file_id", Json.str "f1"),
        ("mime_type", Json.str "application/vnd.ms-excel")])])
    (Json.obj [("file_id", Json.str "f1"),
      ("mime_type", Json.str "application/vnd.ms-excel")])
    (Json.obj [("id", Json.int 1)]) (Json.int 1)
    (Json.str "application/vnd.ms-excel")
    (Json.obj [("result", Json.obj [("file_path", Json.str "d/f")])])
    "f1" "d/f"
    rfl rfl rfl rfl rfl rfl rfl rfl rfl (by decide) rfl (by decide) rfl rfl rfl rfl).1

set_option maxHeartbeats 1000000 in
/-- Whenever the eligibility checks of lines 228-242 pass, the
pipeline never returns the Python-None fall-through: every branch of
the remainder either returns a payload or raises (line 271). -/
theorem document_pipeline_responds (env : Env) (message document chat chat_id mt : Json)
    (hd : message.get "document" = document) (hdo : document.isObj = true)
    (hc : message.get "chat" = chat) (hco : chat.isObj = true)
    (hid : chat.get "id" = chat_id) (hcid : chat_id.isIntOrStr = true)
    (hfs : (document.get "file_id").isStr = true)
    (hmt : document.getD "mime_type" (Json.str "") = mt) (hmts : mt.isStr = true)
    (helig : (mt.asString == SUPPORTED_MIME
      || has_supported_extension (document.get "file_name")) = true) :
    (handle_document_message env message).1 ≠ DocOutcome.fallthrough := by
  rcases env with ⟨tok, gf, dl, ca, cr, sd, pk⟩
  by_cases hsz : size_exceeds (document.get "file_size") = true
  · simp [handle_document_message, hd, hc, hid, hmt, hdo, hco, hcid, hfs, hmts, helig, hsz]
  rw [Bool.not_eq_true] at hsz
  by_cases htk : tok = ""
  · simp [handle_document_message, hd, hc, hid, hmt, hdo, hco, hcid, hfs, hmts, helig, hsz, htk]
  rcases gf with u | data
  · simp [handle_document_message, hd, hc, hid, hmt, hdo, hco, hcid, hfs, hmts, helig, hsz, htk]
  cases hdob : data.isObj
  · simp [handle_document_message, hd, hc, hid, hmt, hdo, hco, hcid, hfs, hmts, helig, hsz,
      htk, hdob]
  cases hrob : (if (data.get "result").truthy = true then data.get "result"
      else Json.obj []).isObj
  · simp [handle_document_message, hd, hc, hid, hmt, hdo, hco, hcid, hfs, hmts, helig, hsz,
      htk, hdob, hrob]
  cases hfp : ((if (data.get "result").truthy = true then data.get "result"
      else Json.obj []).get "file_path").isStr
  · simp [handle_document_message, hd, hc, hid, hmt, hdo, hco, hcid, hfs, hmts, helig, hsz,
      htk, hdob, hrob, hfp]
  rcases dl with u | bs
  · simp [handle_document_message, hd, hc, hid, hmt, hdo, hco, hcid, hfs, hmts, helig, hsz,
      htk, hdob, hrob, hfp]
  by_cases hlen : bs.length > MAX_BYTES
  · simp [handle_document_message, hd, hc, hid, hmt, hdo, hco, hcid, hfs, hmts, helig, hsz,
      htk, hdob, hrob, hfp, hlen]
  cases ca
  · simp [handle_document_message, hd, hc, hid, hmt, hdo, hco, hcid, hfs, hmts, helig, hsz,
      htk, hdob, hrob, hfp, hlen]
  rcases hcr : cr bs with u | out
  · simp [handle_document_message, hd, hc, hid, hmt, hdo, hco, hcid, hfs, hmts, helig, hsz,
      htk, hdob, hrob, hfp, hlen, hcr]
  cases sd <;>
    simp [handle_document_message, hd, hc, hid, hmt, hdo, hco, hcid, hfs, hmts, helig, hsz,
      htk, hdob, hrob, hfp, hlen, hcr]

/-- A run environment with no token and every collaborator failing. -/
def env_stub : Env :=
  { token := "", getFileResp := .error (), downloadResp := .error (),
    converterAvailable := false, convertResult := fun _ => .error (),
    sendDocOk := false, persistOk := true }

/-- A run environment in which every stage succeeds. -/
def env_success : Env :=
  { token := "tok",
    getFileResp := .ok (Json.obj [("result", Json.obj [("file_path", Json.str "d/f")])]),
    downloadResp := .ok [1, 2, 3],
    converterAvailable := true, convertResult := fun b => .ok (b ++ [9]),
    sendDocOk := true, persistOk := true }

/-- Counterexample to C1 as stated: a document whose file_id is a
string and whose file name report.xls carries a recognized legacy
extension, but whose mime_type entry is the non-string 5, is NOT
handled by the pipeline (it returns the empty fall-through), although
the claimed eligibility condition (file_id a string, and legacy MIME or
recognized extension) holds for it. -/
theorem nonstring_mime_rejected_despite_extension :
    (handle_document_message env_stub
      (Json.obj [("chat", Json.obj [("id", Json.int 1)]),
        ("document", Json.obj [("file_id", Json.str "f1"),
          ("file_name", Json.str "report.xls"),
          ("mime_type", Json.int 5)])])).1 = DocOutcome.fallthrough ∧
    has_supported_extension (Json.str "report.xls") = true ∧
    (Json.str "f1").isStr = true :=
  ⟨rfl, by decide, rfl⟩

/-- Claim C1 (amended): for every message with a valid chat id and a
document object, the pipeline claims the document — does not return
the empty fall-through to contact/text handling — exactly when its
file_id is a string, its mime_type entry is a string (absent defaults
to the empty string), and either the MIME type equals
application/vnd.ms-excel or the file name ends case-insensitively in a
recognized legacy extension.  On a claimed document the pipeline
returns a payload or, when the getFile body carries a truthy
non-mapping "result", raises the uncaught error of line 271; it never
falls through.  The right-hand side never mentions the declared
file_size, so eligibility is independent of it. -/
theorem eligibility_characterization (env : Env) (message document chat chat_id : Json)
    (hd : message.get "document" = document) (hdo : document.isObj = true)
    (hc : message.get "chat" = chat) (hco : chat.isObj = true)
    (hid : chat.get "id" = chat_id) (hcid : chat_id.isIntOrStr = true) :
    (handle_document_message env message).1 ≠ DocOutcome.fallthrough ↔
      ((document.get "file_id").isStr = true ∧
       (document.getD "mime_type" (Json.str "")).isStr = true ∧
       ((document.getD "mime_type" (Json.str "")).asString = SUPPORTED_MIME ∨
        has_supported_extension (document.get "file_name") = true)) := by
  by_cases h1 : (document.get "file_id").isStr = true
  · by_cases h2 : (document.getD "mime_type" (Json.str "")).isStr = true
    · by_cases h3 : ((document.getD "mime_type" (Json.str "")).asString == SUPPORTED_MIME
        || has_supported_extension (document.get "file_name")) = true
      · refine iff_of_true ?_ ?_
        · exact document_pipeline_responds env message document chat chat_id _
            hd hdo hc hco hid hcid h1 rfl h2 h3
        · refine ⟨h1, h2, ?_⟩
          simpa using h3
      · refine iff_of_false ?_ ?_
        · rw [Bool.or_eq_true, not_or, Bool.not_eq_true, Bool.not_eq_true] at h3
          have hnone : handle_document_message env message = (.fallthrough, []) := by
            simp [handle_document_message, hd, hc, hid, hdo, hco, hcid, h1, h2,
              h3.1, h3.2]
          simp [hnone]
        · rintro ⟨-, -, hor⟩
          rw [Bool.or_eq_true, not_or, Bool.not_eq_true, Bool.not_eq_true] at h3
          rcases hor with heq | hext
          · exact absurd (beq_iff_eq.mpr heq) (by simp [h3.1])
          · exact absurd hext (by simp [h3.2])
    · rw [Bool.not_eq_true] at h2
      refine iff_of_false ?_ ?_
      · have hnone : handle_document_message env message = (.fallthrough, []) := by
          simp [handle_document_message, hd, hc, hid, hdo, hco, hcid, h1, h2]
        simp [hnone]
      · rintro ⟨-, hs, -⟩
        exact absurd hs (by simp [h2])
  · rw [Bool.not_eq_true] at h1
    refine iff_of_false ?_ ?_
    · have hnone : handle_document_message env message = (.fallthrough, []) := by
        simp [handle_document_message, hd, hc, hid, hdo, hco, hcid, h1]
      simp [hnone]
    · rintro ⟨hs, -, -⟩
      exact absurd hs (by simp [h1])

/-- Witness for C1 (amended) at a document with MIME
application/vnd.ms-excel and no filename. -/
theorem eligibility_characterization_witness :
    (handle_document_message env_stub
      (Json.obj [("chat", Json.obj [("id", Json.int 1)]),
        ("document", Json.obj [("file_id", Json.str "f1"),
          ("mime_type", Json.str "application/vnd.ms-excel")])])).1 ≠ DocOutcome.fallthrough :=
  (eligibility_characterization env_stub
    (Json.obj [("chat", Json.obj [("id", Json.int 1)]),
      ("document", Json.obj [("file_id", Json.str "f1"),
        ("mime_type", Json.str "application/vnd.ms-excel")])])
    (Json.obj [("file_id", Json.str "f1"),
      ("mime_type", Json.str "application/vnd.ms-excel")])
    (Json.obj [("id", Json.int 1)]) (Json.int 1)
    rfl rfl rfl rfl rfl rfl).mpr ⟨rfl, rfl, Or.inl rfl⟩

/-- Claim C10: the extension check accepts exactly the suffixes .xls
and .xlx, case-insensitively: a document with a string file_id, a
string (or absent) MIME type and a file name ending in .xlx is claimed
by the pipeline (never falls through to contact/text handling)
whatever its MIME type is, while a file name ending in .xlsx fails the
extension check, so such a document with an unrelated MIME type is not
handled and falls through. -/
theorem supported_extension_set :
    (∀ (env : Env) (message document chat chat_id mt : Json) (name : String),
      message.get "document" = document → document.isObj = true →
      message.get "chat" = chat → chat.isObj = true →
      chat.get "id" = chat_id → chat_id.isIntOrStr = true →
      (document.get "file_id").isStr = true →
      document.getD "mime_type" (Json.str "") = mt → mt.isStr = true →
      document.get "file_name" = Json.str name →
      py_endswith (py_lower name) ".xlx" = true →
      (handle_document_message env message).1 ≠ DocOutcome.fallthrough) ∧
    has_supported_extension (Json.str "report.xlsx") = false ∧
    (∀ (env : Env) (message document chat chat_id mt : Json),
      message.get "document" = document → document.isObj = true →
      message.get "chat" = chat → chat.isObj = true →
      chat.get "id" = chat_id → chat_id.isIntOrStr = true →
      (document.get "file_id").isStr = true →
      document.getD "mime_type" (Json.str "") = mt → mt.isStr = true →
      mt.asString ≠ SUPPORTED_MIME →
      document.get "file_name" = Json.str "report.xlsx" →
      handle_document_message env message = (.fallthrough, [])) := by
  refine ⟨?_, by decide, ?_⟩
  · intro env message document chat chat_id mt name hd hdo hc hco hid hcid hfs hmt hmts
      hname hext
    refine document_pipeline_responds env message document chat chat_id mt
      hd hdo hc hco hid hcid hfs hmt hmts ?_
    simp [has_supported_extension, hname, hext]
  · intro env message document chat chat_id mt hd hdo hc hco hid hcid hfs hmt hmts hmime hname
    have hm : (mt.asString == SUPPORTED_MIME) = false := by
      simp [hmime]
    have he : has_supported_extension (document.get "file_name") = false := by
      rw [hname]
      decide
    simp [handle_document_message, hd, hc, hid, hmt, hdo, hco, hcid, hfs, hmts, hm, he]

/-- Witness for C10: a document named Data.XLX with an empty MIME type
is handled; one named report.xlsx with MIME text/plain is not. -/
theorem supported_extension_set_witness :
    ((handle_document_message env_stub
      (Json.obj [("chat", Json.obj [("id", Json.int 1)]),
        ("document", Json.obj [("file_id", Json.str "f1"),
          ("file_name", Json.str "Data.XLX")])])).1 ≠ DocOutcome.fallthrough) ∧
    (handle_document_message env_stub
      (Json.obj [("chat", Json.obj [("id", Json.int 1)]),
        ("document", Json.obj [("file_id", Json.str "f1"),
          ("file_name", Json.str "report.xlsx"),
          ("mime_type", Json.str "text/plain")])]) = (DocOutcome.fallthrough, [])) := by
  constructor
  · exact supported_extension_set.1 env_stub
      (Json.obj [("chat", Json.obj [("id", Json.int 1)]),
        ("document", Json.obj [("file_id", Json.str "f1"),
          ("file_name", Json.str "Data.XLX")])])
      (Json.obj [("file_id", Json.str "f1"), ("file_name", Json.str "Data.XLX")])
      (Json.obj [("id", Json.int 1)]) (Json.int 1) (Json.str "") "Data.XLX"
      rfl rfl rfl rfl rfl rfl rfl rfl rfl rfl (by decide)
  · exact supported_extension_set.2.2 env_stub
      (Json.obj [("chat", Json.obj [("id", Json.int 1)]),
        ("document", Json.obj [("file_id", Json.str "f1"),
          ("file_name", Json.str "report.xlsx"),
          ("mime_type", Json.str "text/plain")])])
      (Json.obj [("file_id", Json.str "f1"), ("file_name", Json.str "report.xlsx"),
        ("mime_type", Json.str "text/plain")])
      (Json.obj [("id", Json.int 1)]) (Json.int 1) (Json.str "text/plain")
      rfl rfl rfl rfl rfl rfl rfl rfl rfl (by decide) rfl

set_option maxHeartbeats 1000000 in
/-- Helper: the document pipeline's event trace never contains a
contact-persistence event, whatever the message and environment. -/
theorem no_contact_persist_in_document_trace (env : Env) (message : Json) (p : Json) :
    Event.contactPersist p ∉ (handle_document_message env message).2 := by
  rcases env with ⟨tok, gf, dl, ca, cr, sd, pk⟩
  cases hdo : (message.get "document").isObj
  · simp [handle_document_message, hdo]
  cases hco : (message.get "chat").isObj
  · simp [handle_document_message, hdo, hco]
  cases hcid : ((message.get "chat").get "id").isIntOrStr
  · simp [handle_document_message, hdo, hco, hcid]
  cases hfs : ((message.get "document").get "file_id").isStr
  · simp [handle_document_message, hdo, hco, hcid, hfs]
  cases hmts : ((message.get "document").getD "mime_type" (Json.str "")).isStr
  · simp [handle_document_message, hdo, hco, hcid, hfs, hmts]
  cases helig : (((message.get "document").getD "mime_type" (Json.str "")).asString
      == SUPPORTED_MIME
    || has_supported_extension ((message.get "document").get "file_name"))
  · simp [handle_document_message, hdo, hco, hcid, hfs, hmts, helig]
  by_cases hsz : size_exceeds ((message.get "document").get "file_size") = true
  · simp [handle_document_message, hdo, hco, hcid, hfs, hmts, helig, hsz]
  by_cases htk : tok = ""
  · simp [handle_document_message, hdo, hco, hcid, hfs, hmts, helig, hsz, htk]
  rcases gf with u | data
  · simp [handle_document_message, hdo, hco, hcid, hfs, hmts, helig, hsz, htk]
  cases hdob : data.isObj
  · simp [handle_document_message, hdo, hco, hcid, hfs, hmts, helig, hsz, htk, hdob]
  cases hrob : (if (data.get "result").truthy = true then data.get "result"
      else Json.obj []).isObj
  · simp [handle_document_message, hdo, hco, hcid, hfs, hmts, helig, hsz, htk, hdob, hrob]
  cases hfp : ((if (data.get "result").truthy = true then data.get "result"
      else Json.obj []).get "file_path").isStr
  · simp [handle_document_message, hdo, hco, hcid, hfs, hmts, helig, hsz, htk, hdob, hrob, hfp]
  rcases dl with v | bs
  · simp [handle_document_message, hdo, hco, hcid, hfs, hmts, helig, hsz, htk, hdob, hrob, hfp]
  by_cases hlen : bs.length > MAX_BYTES
  · simp [handle_document_message, hdo, hco, hcid, hfs, hmts, helig, hsz, htk, hdob, hrob, hfp,
      hlen]
  cases ca
  · simp [handle_document_message, hdo, hco, hcid, hfs, hmts, helig, hsz, htk, hdob, hrob, hfp,
      hlen]
  rcases hcr : cr bs with u | out
  · simp [handle_document_message, hdo, hco, hcid, hfs, hmts, helig, hsz, htk, hdob, hrob, hfp,
      hlen, hcr]
  cases sd <;>
    simp [handle_document_message, hdo, hco, hcid, hfs, hmts, helig, hsz, htk, hdob, hrob, hfp,
      hlen, hcr]

/-- Counterexample to C3 as stated: a message carrying both a contact
and an INELIGIBLE document (report.docx, unrelated MIME) is answered
by the contact path — the contact acknowledgement is returned and a
contact-persistence event occurs — because the document pipeline
returned the empty fall-through. -/
theorem contact_path_runs_for_ineligible_document :
    handle_update env_success
      (Json.obj [("message", Json.obj [("chat", Json.obj [("id", Json.int 1)]),
        ("contact", Json.obj [("first_name", Json.str "Alice")]),
        ("document", Json.obj [("file_id", Json.str "f"),
          ("file_name", Json.str "report.docx"),
          ("mime_type", Json.str "text/plain")])])]) =
      .ok (sendMessagePayload (Json.int 1) "Спасибо! Alice сохранён для авторизации.",
        [Event.contactPersist (Json.obj [("chat_id", Json.int 1),
          ("contact", Json.obj [("first_name", Json.str "Alice")])])]) ∧
    (handle_document_message env_success
      (Json.obj [("chat", Json.obj [("id", Json.int 1)]),
        ("contact", Json.obj [("first_name", Json.str "Alice")]),
        ("document", Json.obj [("file_id", Json.str "f"),
          ("file_name", Json.str "report.docx"),
          ("mime_type", Json.str "text/plain")])])).1 = DocOutcome.fallthrough :=
  ⟨rfl, rfl⟩

/-- Claim C3 (amended): for a message carrying both a document and a
contact, the document handler runs first; whenever the document
pipeline handles the document (returns a response), that response is
the overall response of handle_update and the contact path is never
invoked in that run (no contact-persistence event occurs).  When the
pipeline returns the empty fall-through the update falls to the
contact path instead. -/
theorem document_priority_over_contact (env : Env) (update message r : Json)
    (evs : List Event)
    (hu : update.isObj = true) (hm : update.get "message" = message)
    (hmo : message.isObj = true)
    (hcontact : (message.get "contact").isObj = true)
    (hdoc : (message.get "document").isObj = true)
    (hhandled : handle_document_message env message = (.payload r, evs)) :
    handle_update env update = .ok (r, evs) ∧
    (∀ p : Json, Event.contactPersist p ∉ evs) := by
  constructor
  · simp [handle_update, hu, hm, hmo, hhandled]
  · intro p
    have hmem := no_contact_persist_in_document_trace env message p
    rw [hhandled] at hmem
    exact hmem

/-- Witness for C3 (amended) at a message with an eligible document
and a contact: the response is the document pipeline's "sent" status
and the trace holds no contact persistence. -/
theorem document_priority_over_contact_witness :
    handle_update env_success
      (Json.obj [("message", Json.obj [("chat", Json.obj [("id", Json.int 1)]),
        ("contact", Json.obj [("first_name", Json.str "Alice")]),
        ("document", Json.obj [("file_id", Json.str "f1"),
          ("mime_type", Json.str "application/vnd.ms-excel")])])]) =
      .ok (STATUS_SENT,
        [Event.notify, Event.locate "f1", Event.download "d/f", Event.convert,
          Event.upload (Json.str "converted.xlsx") [1, 2, 3, 9]]) ∧
    Event.contactPersist (Json.obj []) ∉
      [Event.notify, Event.locate "f1", Event.download "d/f", Event.convert,
        Event.upload (Json.str "converted.xlsx") [1, 2, 3, 9]] := by
  have h := document_priority_over_contact env_success
    (Json.obj [("message", Json.obj [("chat", Json.obj [("id", Json.int 1)]),
      ("contact", Json.obj [("first_name", Json.str "Alice")]),
      ("document", Json.obj [("file_id", Json.str "f1"),
        ("mime_type", Json.str "application/vnd.ms-excel")])])])
    (Json.obj [("chat", Json.obj [("id", Json.int 1)]),
      ("contact", Json.obj [("first_name", Json.str "Alice")]),
      ("document", Json.obj [("file_id", Json.str "f1"),
        ("mime_type", Json.str "application/vnd.ms-excel")])])
    STATUS_SENT
    [Event.notify, Event.locate "f1", Event.download "d/f", Event.convert,
      Event.upload (Json.str "converted.xlsx") [1, 2, 3, 9]]
    rfl rfl rfl rfl rfl rfl
  exact ⟨h.1, h.2 (Json.obj [])⟩

/-- Claim C7: for every contact-bearing message (valid chat id), the
contact record built from the message is persisted before the
acknowledgement is composed: if persistence fails the exception
propagates out of the contact path and no acknowledgement payload is
returned; if persistence succeeds the run records exactly the persist
event of that ContactRecord and returns the acknowledgement built from
the contact fields. -/
theorem contact_persisted_before_ack :
    (∀ (env : Env) (message contact chat chat_id payload : Json),
      message.get "contact" = contact → contact.isObj = true →
      message.get "chat" = chat → chat.isObj = true →
      chat.get "id" = chat_id → chat_id.isIntOrStr = true →
      prepare_contact_payload chat_id message = some payload →
      env.persistOk = false →
      handle_contact_message env message = .error ()) ∧
    (∀ (env : Env) (message contact chat chat_id payload : Json),
      message.get "contact" = contact → contact.isObj = true →
      message.get "chat" = chat → chat.isObj = true →
      chat.get "id" = chat_id → chat_id.isIntOrStr = true →
      prepare_contact_payload chat_id message = some payload →
      env.persistOk = true →
      handle_contact_message env message =
        .ok (some (sendMessagePayload chat_id (contact_saved_text
            (contact_label (contact.get "first_name") (contact.get "last_name")
              (contact.get "phone_number")))),
          [Event.contactPersist payload])) := by
  constructor
  · intro env message contact chat chat_id payload hcon hco hch hcho hid hcid hpl hpk
    simp [handle_contact_message, create_contact_acknowledgement, hcon, hco, hch, hcho,
      hid, hcid, hpl, hpk]
  · intro env message contact chat chat_id payload hcon hco hch hcho hid hcid hpl hpk
    simp [handle_contact_message, create_contact_acknowledgement, hcon, hco, hch, hcho,
      hid, hcid, hpl, hpk]

/-- Witness for C7: one concrete contact message run with failing
persistence (the exception escapes) and one with working persistence
(record persisted, acknowledgement composed from the contact). -/
theorem contact_persisted_before_ack_witness :
    (handle_contact_message { env_success with persistOk := false }
      (Json.obj [("chat", Json.obj [("id", Json.int 7)]),
        ("contact", Json.obj [("first_name", Json.str "Alice")]),
        ("message_id", Json.int 44)]) = .error ()) ∧
    (handle_contact_message env_success
      (Json.obj [("chat", Json.obj [("id", Json.int 7)]),
        ("contact", Json.obj [("first_name", Json.str "Alice")]),
        ("message_id", Json.int 44)]) =
      .ok (some (sendMessagePayload (Json.int 7)
          "Спасибо! Alice сохранён для авторизации."),
        [Event.contactPersist (Json.obj [("chat_id", Json.int 7),
          ("contact", Json.obj [("first_name", Json.str "Alice")]),
          ("message_id", Json.int 44)])])) := by
  constructor
  · exact contact_persisted_before_ack.1 { env_success with persistOk := false }
      (Json.obj [("chat", Json.obj [("id", Json.int 7)]),
        ("contact", Json.obj [("first_name", Json.str "Alice")]),
        ("message_id", Json.int 44)])
      (Json.obj [("first_name", Json.str "Alice")])
      (Json.obj [("id", Json.int 7)]) (Json.int 7)
      (Json.obj [("chat_id", Json.int 7),
        ("contact", Json.obj [("first_name", Json.str "Alice")]),
        ("message_id", Json.int 44)])
      rfl rfl rfl rfl rfl rfl rfl rfl
  · have h := contact_persisted_before_ack.2 env_success
      (Json.obj [("chat", Json.obj [("id", Json.int 7)]),
        ("contact", Json.obj [("first_name", Json.str "Alice")]),
        ("message_id", Json.int 44)])
      (Json.obj [("first_name", Json.str "Alice")])
      (Json.obj [("id", Json.int 7)]) (Json.int 7)
      (Json.obj [("chat_id", Json.int 7),
        ("contact", Json.obj [("first_name", Json.str "Alice")]),
        ("message_id", Json.int 44)])
      rfl rfl rfl rfl rfl rfl rfl rfl
    simpa using h

/-- Counterexample to C8 as stated: on a fully successful run for a
document named report.xls, the upload event carries the ORIGINAL file
name report.xls — the extension is not swapped to the
modern-spreadsheet extension (report.xlsx). -/
theorem upload_keeps_original_filename :
    handle_document_message env_success
      (Json.obj [("chat", Json.obj [("id", Json.int 1)]),
        ("document", Json.obj [("file_id", Json.str "f1"),
          ("file_name", Json.str "report.xls"),
          ("mime_type", Json.str "application/vnd.ms-excel")])]) =
      (DocOutcome.payload STATUS_SENT,
        [Event.notify, Event.locate "f1", Event.download "d/f", Event.convert,
          Event.upload (Json.str "report.xls") [1, 2, 3, 9]]) ∧
    Json.str "report.xls" ≠ Json.str "report.xlsx" :=
  ⟨rfl, by simp⟩

/-- Claim C8 (amended): on every successful conversion the upload
stage sends the converted bytes back to the chat as a new document
whose filename is the ORIGINAL file name unchanged when that name is
truthy, and the generic default converted.xlsx otherwise; no extension
swap is performed. -/
theorem upload_filename_from_original (env : Env)
    (message document chat chat_id mt data : Json) (fid p : String) (bs out : List Nat)
    (hd : message.get "document" = document) (hdo : document.isObj = true)
    (hc : message.get "chat" = chat) (hco : chat.isObj = true)
    (hid : chat.get "id" = chat_id) (hcid : chat_id.isIntOrStr = true)
    (hfid : document.get "file_id" = Json.str fid)
    (hmt : document.getD "mime_type" (Json.str "") = mt) (hmts : mt.isStr = true)
    (helig : (mt.asString == SUPPORTED_MIME
      || has_supported_extension (document.get "file_name")) = true)
    (hsize : size_exceeds (document.get "file_size") = false)
    (htok : env.token ≠ "")
    (hgf : env.getFileResp = .ok data)
    (hrt : (data.get "result").truthy = true)
    (hfp : (data.get "result").get "file_path" = Json.str p)
    (hdl : env.downloadResp = .ok bs) (hlen : ¬ bs.length > MAX_BYTES)
    (hca : env.converterAvailable = true)
    (hcr : env.convertResult bs = .ok out)
    (hsd : env.sendDocOk = true) :
    handle_document_message env message =
      (.payload STATUS_SENT,
        [Event.notify, Event.locate fid, Event.download p, Event.convert,
          Event.upload (if (document.get "file_name").truthy = true
            then document.get "file_name" else Json.str "converted.xlsx") out]) := by
  have hdataobj : data.isObj = true := Json.isObj_of_get_truthy data "result" hrt
  have hrobj : (data.get "result").isObj = true :=
    Json.isObj_of_get_str (data.get "result") "file_path" p hfp
  simp [handle_document_message, hd, hc, hid, hmt, hdo, hco, hcid, hfid, hmts, helig,
    hsize, htok, hgf, hrt, hfp, hdl, hlen, hca, hcr, hsd, hdataobj, hrobj]

/-- Witness for C8 (amended) at a document with no file name: the
upload uses the generic default converted.xlsx. -/
theorem upload_filename_from_original_witness :
    handle_document_message env_success
      (Json.obj [("chat", Json.obj [("id", Json.int 1)]),
        ("document", Json.obj [("file_id", Json.str "f1"),
          ("mime_type", Json.str "application/vnd.ms-excel")])]) =
      (DocOutcome.payload STATUS_SENT,
        [Event.notify, Event.locate "f1", Event.download "d/f", Event.convert,
          Event.upload (Json.str "converted.xlsx") [1, 2, 3, 9]]) := by
  have h := upload_filename_from_original env_success
    (Json.obj [("chat", Json.obj [("id", Json.int 1)]),
      ("document", Json.obj [("file_id", Json.str "f1"),
        ("mime_type", Json.str "application/vnd.ms-excel")])])
    (Json.obj [("file_id", Json.str "f1"),
      ("mime_type", Json.str "application/vnd.ms-excel")])
    (Json.obj [("id", Json.int 1)]) (Json.int 1)
    (Json.str "application/vnd.ms-excel")
    (Json.obj [("result", Json.obj [("file_path", Json.str "d/f")])])
    "f1" "d/f" [1, 2, 3] [1, 2, 3, 9]
    rfl rfl rfl rfl rfl rfl rfl rfl rfl (by decide) rfl (by decide) rfl rfl rfl rfl
    (by decide) rfl rfl rfl
  simpa using h

/-- Modelled from the spec: a name field counts only when it is a
string whose stripped form is non-empty, and contributes its stripped
form (spec, Data model: "first+last name (space-joined, trimmed) if
either is non-empty"). -/
def nonblank_name (j : Json) : Option String :=
  match j with
  | .str s => if py_strip s = "" then none else some (py_strip s)
  | _ => none

theorem nonblank_name_eq_strip_part (j : Json) : nonblank_name j = strip_part j := rfl

/-- Modelled from the spec: ContactLabel is the space-joined trimmed
first+last name if either is a non-empty non-whitespace string, else
the trimmed phone number if non-empty, else the generic placeholder. -/
def contact_label_spec (first_name last_name phone : Json) : String :=
  match nonblank_name first_name, nonblank_name last_name with
  | some a, some b => a ++ " " ++ b
  | some a, none => a
  | none, some b => b
  | none, none =>
    match phone with
    | .str s => if py_strip s = "" then CONTACT_PLACEHOLDER else py_strip s
    | _ => CONTACT_PLACEHOLDER

/-- Claim C9: the code's ContactLabel derivation is a total function
of the three contact fields (purity and determinism are inherent to
the functional embedding) and agrees everywhere with the
specification's description: space-joined trimmed names when either
name is non-blank, else the trimmed phone when non-blank, else the
placeholder; in particular whitespace-only names and phone all fall
through to the placeholder. -/
theorem contact_label_matches_spec :
    (∀ first_name last_name phone : Json,
      contact_label first_name last_name phone =
        contact_label_spec first_name last_name phone) ∧
    contact_label (Json.str "  ") (Json.str " ") (Json.str "  ") = CONTACT_PLACEHOLDER := by
  constructor
  · intro f l p
    cases hf : strip_part f <;> cases hl : strip_part l <;>
      simp [contact_label, contact_label_spec, nonblank_name_eq_strip_part, hf, hl, py_join]
  · rfl
